import Mathlib

/-!
Shallow embedding of `crates/benches/browser-prover-wasm/pkg/worker.js`.

The artifact contains two scripts:

1. a bootstrap prover worker script that, at module load, defines an async
   function `run` (awaiting the wasm module `init()`, then
   `initThreadPool(navigator.hardwareConcurrency)`, then `wasm_start()`,
   with `setup_tracing_web` commented out) and invokes it immediately with
   no error handling;

2. a Comlink-exposed `Worker` class with
   - `async init()`: `try { await init(); init_logging({level:'Trace',
     crate_filters: undefined, span_events: undefined});
     await initThreadPool(navigator.hardwareConcurrency) } catch (e)
     { console.error(e); throw e }` (the `setup_tracing_web("debug")` call
     is commented out), and
   - `async run(ws_ip, ws_port, wasm_to_server_port, wasm_to_verifier_port,
     wasm_to_native_port)`: `try { await wasm_main(...same five args...) }
     catch (e) { console.error(e); throw e }`.

We model each external call as an emitted `Event`; the outcome of each
external call (resolve with a value, or throw a value) is supplied by an
environment `Env`. A computation is a pair: the list of events it emitted,
and its result (`Except` models throw vs. resolve). JS numbers are never
computed on by this layer, so they are carried opaquely inside `JsValue`.
An async JS function with no `return` statement resolves with `undefined`.
-/

/-- Opaque JavaScript values as they flow through this glue layer.
The layer performs no arithmetic or coercion on them, so ports and hosts
are carried as constructors and compared only for identity. -/
inductive JsValue where
  | undefined : JsValue
  | nullv : JsValue
  | boolean : Bool → JsValue
  | num : Int → JsValue
  | str : String → JsValue
deriving DecidableEq, Repr

/-- The object literal passed to `init_logging`:
`{ level: 'Trace', crate_filters: undefined, span_events: undefined }`. -/
structure LoggingConfig where
  level : JsValue
  crate_filters : JsValue
  span_events : JsValue
deriving DecidableEq, Repr

/-- The concrete logging config built inside `Worker.init`. -/
def loggingObj : LoggingConfig :=
  { level := JsValue.str "Trace"
    crate_filters := JsValue.undefined
    span_events := JsValue.undefined }

/-- One observable external call made by the worker scripts. -/
inductive Event where
  | moduleInit : Event
  | initLogging : LoggingConfig → Event
  | setupTracingWeb : String → Event
  | initThreadPool : Nat → Event
  | wasmMain : JsValue → JsValue → JsValue → JsValue → JsValue → Event
  | wasmStart : Event
  | consoleError : JsValue → Event
deriving DecidableEq, Repr

/-- Result of a JS computation: it either resolves with a value or throws
a (JS) value. -/
def Result (α : Type) : Type := Except JsValue α

/-- Environment fixing the outcome of every external call the two scripts
can make. Fields prefixed `prover` belong to the bootstrap prover script
(`tlsn_benches_browser_prover_wasm.js`); the others belong to the
`Worker` class (`tlsn_benches_browser_wasm.js`). -/
structure Env where
  hardwareConcurrency : Nat
  moduleInitRes : Result Unit
  initLoggingRes : LoggingConfig → Result Unit
  initThreadPoolRes : Nat → Result Unit
  wasmMainRes : JsValue → JsValue → JsValue → JsValue → JsValue → Result JsValue
  proverModuleInitRes : Result Unit
  proverPoolRes : Nat → Result Unit
  wasmStartRes : Result JsValue

/-- An external call: emits its event and yields the outcome the
environment assigns to it. -/
def call {α : Type} (ev : Event) (out : Result α) : List Event × Result α :=
  ([ev], out)

/-- Sequential composition of awaited steps: a thrown value short-circuits,
a resolved value feeds the continuation; emitted events accumulate in
order. -/
def seq {α β : Type} (x : List Event × Result α)
    (f : α → List Event × Result β) : List Event × Result β :=
  match x.2 with
  | Except.error e => (x.1, Except.error e)
  | Except.ok a => (x.1 ++ (f a).1, (f a).2)

/-- The `try { body } catch (e) { console.error(e); throw e }` wrapper used
by both `Worker.init` and `Worker.run`: on a throw it logs the very value
thrown and rethrows it; on success it is transparent. -/
def tryCatchLog {α : Type} (x : List Event × Result α) :
    List Event × Result α :=
  match x.2 with
  | Except.error e => (x.1 ++ [Event.consoleError e], Except.error e)
  | Except.ok _ => x

namespace Worker

/-- Body of the `try` block of `Worker.init`: `await init()`, then
`init_logging(obj)` with the hardcoded config, then
`await initThreadPool(navigator.hardwareConcurrency)`; the async function
then resolves with `undefined` (it has no return statement). -/
def initBody (env : Env) : List Event × Result JsValue :=
  seq (call Event.moduleInit env.moduleInitRes) fun _ =>
  seq (call (Event.initLogging loggingObj) (env.initLoggingRes loggingObj))
    fun _ =>
  seq (call (Event.initThreadPool env.hardwareConcurrency)
        (env.initThreadPoolRes env.hardwareConcurrency)) fun _ =>
  ([], Except.ok JsValue.undefined)

/-- `Worker.init`: the body wrapped in the catch-log-rethrow handler.
The source method takes no arguments (in particular, no tracing config). -/
def init (env : Env) : List Event × Result JsValue :=
  tryCatchLog (initBody env)

/-- Body of the `try` block of `Worker.run`: `await wasm_main(ws_ip,
ws_port, wasm_to_server_port, wasm_to_verifier_port, wasm_to_native_port)`
with the five parameters passed through verbatim; the awaited value is
discarded and the async function resolves with `undefined`. There is no
state check before the call. -/
def runBody (env : Env) (ws_ip ws_port p_server p_verifier p_native :
    JsValue) : List Event × Result JsValue :=
  seq (call (Event.wasmMain ws_ip ws_port p_server p_verifier p_native)
        (env.wasmMainRes ws_ip ws_port p_server p_verifier p_native))
    fun _ =>
  ([], Except.ok JsValue.undefined)

/-- `Worker.run`: the body wrapped in the catch-log-rethrow handler. -/
def run (env : Env) (ws_ip ws_port p_server p_verifier p_native : JsValue) :
    List Event × Result JsValue :=
  tryCatchLog (runBody env ws_ip ws_port p_server p_verifier p_native)

end Worker

/-- The bootstrap prover script's async `run`: `await init()`, then
`await initThreadPool(navigator.hardwareConcurrency)`, then
`await wasm_start()`; the `setup_tracing_web("debug")` line is commented
out and there is no try/catch anywhere. -/
def bootstrapRun (env : Env) : List Event × Result JsValue :=
  seq (call Event.moduleInit env.proverModuleInitRes) fun _ =>
  seq (call (Event.initThreadPool env.hardwareConcurrency)
        (env.proverPoolRes env.hardwareConcurrency)) fun _ =>
  seq (call Event.wasmStart env.wasmStartRes) fun _ =>
  ([], Except.ok JsValue.undefined)

/-- Top-level evaluation of the bootstrap module: the script ends in the
bare statement `run();`, so loading the module immediately invokes
`bootstrapRun` — no RPC trigger, no condition, no handler around it. -/
def bootstrapModuleEval (env : Env) : List Event × Result JsValue :=
  bootstrapRun env

/-- Events that are calls into the compute engine or its setup surface
(everything except the diagnostic `console.error`). -/
def isEngineCall : Event → Bool
  | Event.consoleError _ => false
  | _ => true

/-- Events that set up or mutate the worker runtime (module load, logging
or tracing install, thread-pool request). Runtime state such as pool
readiness is a function of these events only. -/
def isSetupEvent : Event → Bool
  | Event.moduleInit => true
  | Event.initLogging _ => true
  | Event.setupTracingWeb _ => true
  | Event.initThreadPool _ => true
  | _ => false

/-- Whether a history of events has requested a thread pool: the
trace-level notion of the runtime having reached the pool phase. -/
def runtimeReady (history : List Event) : Bool :=
  history.any fun ev =>
    match ev with
    | Event.initThreadPool _ => true
    | _ => false

/-- Number of thread-pool requests in a trace. -/
def countPoolRequests (t : List Event) : Nat :=
  (t.filter fun ev =>
    match ev with
    | Event.initThreadPool _ => true
    | _ => false).length

/-- Logging-install events in a trace. -/
def loggingInstalls (t : List Event) : List Event :=
  t.filter fun ev =>
    match ev with
    | Event.initLogging _ => true
    | _ => false

/-- Environment where every external call succeeds; the host reports a
hardware concurrency of 8 and the engine session resolves `undefined`. -/
def env0 : Env where
  hardwareConcurrency := 8
  moduleInitRes := Except.ok ()
  initLoggingRes := fun _ => Except.ok ()
  initThreadPoolRes := fun _ => Except.ok ()
  wasmMainRes := fun _ _ _ _ _ => Except.ok JsValue.undefined
  proverModuleInitRes := Except.ok ()
  proverPoolRes := fun _ => Except.ok ()
  wasmStartRes := Except.ok JsValue.undefined

/-- Like `env0`, but the engine session entry point resolves with the
non-undefined value `"session-result"`. -/
def envRet : Env :=
  { env0 with wasmMainRes := fun _ _ _ _ _ =>
      Except.ok (JsValue.str "session-result") }

/-- Like `env0`, but the wasm module load throws `"load failed"`. -/
def envInitFail : Env :=
  { env0 with moduleInitRes := Except.error (JsValue.str "load failed") }

/-- Like `env0`, but the engine session throws `"ConnectionRefused"`. -/
def envRunFail : Env :=
  { env0 with wasmMainRes := fun _ _ _ _ _ =>
      Except.error (JsValue.str "ConnectionRefused") }

/-- Like `env0`, but the bootstrap prover module load throws. -/
def envBootFail : Env :=
  { env0 with proverModuleInitRes :=
      Except.error (JsValue.str "boot load failed") }

/-- Concrete arguments for witnesses: a websocket host and four ports. -/
def argIp : JsValue := JsValue.str "127.0.0.1"

def argWsPort : JsValue := JsValue.num 8080

def argServerPort : JsValue := JsValue.num 9001

def argVerifierPort : JsValue := JsValue.num 9002

def argNativePort : JsValue := JsValue.num 9003

/- ------------------------------------------------------------------ -/
/- Helper lemmas: the four execution shapes of `Worker.init`, the two
   of `Worker.run`, and the four of `bootstrapRun`.                    -/
/- ------------------------------------------------------------------ -/

theorem init_module_error (env : Env) (e : JsValue)
    (h : env.moduleInitRes = Except.error e) :
    Worker.init env =
      ([Event.moduleInit, Event.consoleError e], Except.error e) := by
  unfold Worker.init Worker.initBody
  rw [h]
  rfl

theorem init_logging_error (env : Env) (e : JsValue)
    (h1 : env.moduleInitRes = Except.ok ())
    (h2 : env.initLoggingRes loggingObj = Except.error e) :
    Worker.init env =
      ([Event.moduleInit, Event.initLogging loggingObj,
        Event.consoleError e], Except.error e) := by
  unfold Worker.init Worker.initBody
  rw [h1, h2]
  rfl

theorem init_pool_error (env : Env) (e : JsValue)
    (h1 : env.moduleInitRes = Except.ok ())
    (h2 : env.initLoggingRes loggingObj = Except.ok ())
    (h3 : env.initThreadPoolRes env.hardwareConcurrency = Except.error e) :
    Worker.init env =
      ([Event.moduleInit, Event.initLogging loggingObj,
        Event.initThreadPool env.hardwareConcurrency,
        Event.consoleError e], Except.error e) := by
  unfold Worker.init Worker.initBody
  rw [h1, h2, h3]
  rfl

theorem init_all_ok (env : Env)
    (h1 : env.moduleInitRes = Except.ok ())
    (h2 : env.initLoggingRes loggingObj = Except.ok ())
    (h3 : env.initThreadPoolRes env.hardwareConcurrency = Except.ok ()) :
    Worker.init env =
      ([Event.moduleInit, Event.initLogging loggingObj,
        Event.initThreadPool env.hardwareConcurrency],
       Except.ok JsValue.undefined) := by
  unfold Worker.init Worker.initBody
  rw [h1, h2, h3]
  rfl

theorem run_ok (env : Env) (a b c d e v : JsValue)
    (h : env.wasmMainRes a b c d e = Except.ok v) :
    Worker.run env a b c d e =
      ([Event.wasmMain a b c d e], Except.ok JsValue.undefined) := by
  unfold Worker.run Worker.runBody
  rw [h]
  rfl

theorem run_error (env : Env) (a b c d e err : JsValue)
    (h : env.wasmMainRes a b c d e = Except.error err) :
    Worker.run env a b c d e =
      ([Event.wasmMain a b c d e, Event.consoleError err],
       Except.error err) := by
  unfold Worker.run Worker.runBody
  rw [h]
  rfl

theorem boot_module_error (env : Env) (e : JsValue)
    (h : env.proverModuleInitRes = Except.error e) :
    bootstrapRun env = ([Event.moduleInit], Except.error e) := by
  unfold bootstrapRun
  rw [h]
  rfl

theorem boot_pool_error (env : Env) (e : JsValue)
    (h1 : env.proverModuleInitRes = Except.ok ())
    (h2 : env.proverPoolRes env.hardwareConcurrency = Except.error e) :
    bootstrapRun env =
      ([Event.moduleInit, Event.initThreadPool env.hardwareConcurrency],
       Except.error e) := by
  unfold bootstrapRun
  rw [h1, h2]
  rfl

theorem boot_start_error (env : Env) (e : JsValue)
    (h1 : env.proverModuleInitRes = Except.ok ())
    (h2 : env.proverPoolRes env.hardwareConcurrency = Except.ok ())
    (h3 : env.wasmStartRes = Except.error e) :
    bootstrapRun env =
      ([Event.moduleInit, Event.initThreadPool env.hardwareConcurrency,
        Event.wasmStart], Except.error e) := by
  unfold bootstrapRun
  rw [h1, h2, h3]
  rfl

theorem boot_all_ok (env : Env) (v : JsValue)
    (h1 : env.proverModuleInitRes = Except.ok ())
    (h2 : env.proverPoolRes env.hardwareConcurrency = Except.ok ())
    (h3 : env.wasmStartRes = Except.ok v) :
    bootstrapRun env =
      ([Event.moduleInit, Event.initThreadPool env.hardwareConcurrency,
        Event.wasmStart], Except.ok JsValue.undefined) := by
  unfold bootstrapRun
  rw [h1, h2, h3]
  rfl

/- ------------------------------------------------------------------ -/
/- Claim theorems.                                                     -/
/- ------------------------------------------------------------------ -/

/-- C1 counterexample: in an environment where every engine call succeeds,
a `Worker.run` call issued with no prior `Worker.init` (the method reads
no state, so its behaviour is the same whether or not `init` ran) resolves
successfully and its trace does contain the `wasm_main` invocation —
refuting both "fails with an InitializationError" and "never invokes
wasm_main". -/
theorem c1_counterexample :
    Worker.run env0 argIp argWsPort argServerPort argVerifierPort
        argNativePort =
      ([Event.wasmMain argIp argWsPort argServerPort argVerifierPort
          argNativePort], Except.ok JsValue.undefined) ∧
    Event.wasmMain argIp argWsPort argServerPort argVerifierPort
        argNativePort ∈
      (Worker.run env0 argIp argWsPort argServerPort argVerifierPort
        argNativePort).1 :=
  ⟨rfl, by decide⟩

/-- C1 (amended): `Worker.run` performs no readiness check at all: for
every environment and argument tuple — in particular on a worker on which
`init` has never been called — the first event it emits is the `wasm_main`
invocation itself, and the call fails exactly when that engine call
throws, with the engine's own error (no local `InitializationError` is
produced by this layer). -/
theorem c1_run_has_no_readiness_guard (env : Env)
    (a b c d e : JsValue) :
    (Worker.run env a b c d e).1.head? =
      some (Event.wasmMain a b c d e) ∧
    (∀ err, (Worker.run env a b c d e).2 = Except.error err ↔
      env.wasmMainRes a b c d e = Except.error err) := by
  cases h : env.wasmMainRes a b c d e with
  | error err => rw [run_error env a b c d e err h]; simp
  | ok v => rw [run_ok env a b c d e v h]; simp

/-- C1 witness: the amended theorem applied at the all-success
environment and concrete arguments. -/
theorem c1_run_has_no_readiness_guard_witness :
    (Worker.run env0 argIp argWsPort argServerPort argVerifierPort
        argNativePort).1.head? =
      some (Event.wasmMain argIp argWsPort argServerPort argVerifierPort
        argNativePort) :=
  (c1_run_has_no_readiness_guard env0 argIp argWsPort argServerPort
    argVerifierPort argNativePort).1

/-- C2: for every environment and argument tuple, the only engine call
`Worker.run` makes is a single `wasm_main` invocation carrying exactly the
five parameters, in their original order — the single hand-off to the
engine, with no reordering, truncation or coercion of the values. -/
theorem c2_run_single_handoff (env : Env) (a b c d e : JsValue) :
    (Worker.run env a b c d e).1.filter isEngineCall =
      [Event.wasmMain a b c d e] := by
  cases h : env.wasmMainRes a b c d e with
  | error err => rw [run_error env a b c d e err h]; rfl
  | ok v => rw [run_ok env a b c d e v h]; rfl

/-- C2 witness: the theorem applied at the all-success environment and
concrete arguments. -/
theorem c2_run_single_handoff_witness :
    (Worker.run env0 argIp argWsPort argServerPort argVerifierPort
        argNativePort).1.filter isEngineCall =
      [Event.wasmMain argIp argWsPort argServerPort argVerifierPort
        argNativePort] :=
  c2_run_single_handoff env0 argIp argWsPort argServerPort argVerifierPort
    argNativePort

/-- C3 counterexample: in an environment where `wasm_main` resolves with
the value `"session-result"`, `Worker.run` nevertheless resolves with
`undefined` (the source method has no `return` statement, so the awaited
value is discarded) — refuting "resolves with exactly the
session-completion value that wasm_main returned". -/
theorem c3_counterexample :
    envRet.wasmMainRes argIp argWsPort argServerPort argVerifierPort
        argNativePort = Except.ok (JsValue.str "session-result") ∧
    (Worker.run envRet argIp argWsPort argServerPort argVerifierPort
        argNativePort).2 = Except.ok JsValue.undefined ∧
    JsValue.undefined ≠ JsValue.str "session-result" :=
  ⟨rfl, rfl, by decide⟩

/-- C3 (amended): whenever the engine session entry point resolves
(with any value `v`), `Worker.run` resolves with `undefined`: the value
returned by `wasm_main` is awaited and then discarded. -/
theorem c3_run_discards_session_value (env : Env)
    (a b c d e v : JsValue)
    (h : env.wasmMainRes a b c d e = Except.ok v) :
    Worker.run env a b c d e =
      ([Event.wasmMain a b c d e], Except.ok JsValue.undefined) :=
  run_ok env a b c d e v h

/-- C3 witness: the amended theorem applied where the engine resolves
with the non-undefined value `"session-result"`. -/
theorem c3_run_discards_session_value_witness :
    envRet.wasmMainRes argIp argWsPort argServerPort argVerifierPort
        argNativePort = Except.ok (JsValue.str "session-result") ∧
    Worker.run envRet argIp argWsPort argServerPort argVerifierPort
        argNativePort =
      ([Event.wasmMain argIp argWsPort argServerPort argVerifierPort
          argNativePort], Except.ok JsValue.undefined) :=
  ⟨rfl, c3_run_discards_session_value envRet argIp argWsPort argServerPort
    argVerifierPort argNativePort (JsValue.str "session-result") rfl⟩

/-- C4: the catch-log-rethrow contract of both `Worker.init` and
`Worker.run`: whenever the try-block body throws a value `err`, the
operation logs exactly that value to the diagnostic channel
(`console.error`, appended as the last emitted event) and re-raises the
very same value to the caller — the failure is never swallowed or
translated. -/
theorem c4_catch_log_rethrow (env : Env) (a b c d e err : JsValue)
    (t : List Event) :
    (Worker.initBody env = (t, Except.error err) →
      Worker.init env =
        (t ++ [Event.consoleError err], Except.error err)) ∧
    (Worker.runBody env a b c d e = (t, Except.error err) →
      Worker.run env a b c d e =
        (t ++ [Event.consoleError err], Except.error err)) := by
  constructor
  · intro h
    show tryCatchLog (Worker.initBody env) = _
    rw [h]
    rfl
  · intro h
    show tryCatchLog (Worker.runBody env a b c d e) = _
    rw [h]
    rfl

/-- C4 witness: the theorem applied where the module load throws
`"load failed"` (for `init`) and where the engine session throws
`"ConnectionRefused"` (for `run`): in both cases the caller observes the
original error, preceded by its diagnostic log. -/
theorem c4_catch_log_rethrow_witness :
    Worker.init envInitFail =
      ([Event.moduleInit,
        Event.consoleError (JsValue.str "load failed")],
       Except.error (JsValue.str "load failed")) ∧
    Worker.run envRunFail argIp argWsPort argServerPort argVerifierPort
        argNativePort =
      ([Event.wasmMain argIp argWsPort argServerPort argVerifierPort
          argNativePort,
        Event.consoleError (JsValue.str "ConnectionRefused")],
       Except.error (JsValue.str "ConnectionRefused")) :=
  ⟨(c4_catch_log_rethrow envInitFail argIp argWsPort argServerPort
      argVerifierPort argNativePort (JsValue.str "load failed")
      [Event.moduleInit]).1 rfl,
   (c4_catch_log_rethrow envRunFail argIp argWsPort argServerPort
      argVerifierPort argNativePort (JsValue.str "ConnectionRefused")
      [Event.wasmMain argIp argWsPort argServerPort argVerifierPort
        argNativePort]).2 rfl⟩

/-- C5 counterexample: in the all-success environment a first
`Worker.init` completes successfully, yet the combined trace of a second
`Worker.init` after the first contains two thread-pool requests — the
second call is neither a no-op nor a rejection, so repeated `init()` does
spawn a second thread pool. -/
theorem c5_counterexample :
    (Worker.init env0).2 = Except.ok JsValue.undefined ∧
    countPoolRequests ((Worker.init env0).1 ++ (Worker.init env0).1) =
      2 :=
  ⟨rfl, by decide⟩

/-- C5 (amended): `Worker.init` has no idempotence guard: it reads no
state, so in every environment in which one `init()` call succeeds, a
second identical call re-runs every step, and the two calls together
issue two thread-pool requests. -/
theorem c5_second_init_spawns_second_pool (env : Env) (v : JsValue)
    (h : (Worker.init env).2 = Except.ok v) :
    countPoolRequests ((Worker.init env).1 ++ (Worker.init env).1) =
      2 := by
  cases h1 : env.moduleInitRes with
  | error e =>
    rw [init_module_error env e h1] at h
    exact absurd h (by simp)
  | ok u =>
    cases u
    cases h2 : env.initLoggingRes loggingObj with
    | error e =>
      rw [init_logging_error env e h1 h2] at h
      exact absurd h (by simp)
    | ok u2 =>
      cases u2
      cases h3 : env.initThreadPoolRes env.hardwareConcurrency with
      | error e =>
        rw [init_pool_error env e h1 h2 h3] at h
        exact absurd h (by simp)
      | ok u3 =>
        cases u3
        rw [init_all_ok env h1 h2 h3]
        simp [countPoolRequests]

/-- C5 witness: the amended theorem applied at the all-success
environment. -/
theorem c5_second_init_spawns_second_pool_witness :
    (Worker.init env0).2 = Except.ok JsValue.undefined ∧
    countPoolRequests ((Worker.init env0).1 ++ (Worker.init env0).1) =
      2 :=
  ⟨rfl, c5_second_init_spawns_second_pool env0 JsValue.undefined rfl⟩

/-- C6: ordering of `Worker.init`: on success its trace is exactly module
load, then the logging install, then the thread-pool request, and the
pool call has completed (with success) before `init` returns; moreover in
every execution a thread-pool request can only appear after the module
load and logging steps, so the pool is never started before module load
completes. -/
theorem c6_init_step_order (env : Env) :
    (∀ v, (Worker.init env).2 = Except.ok v →
      (Worker.init env).1 =
        [Event.moduleInit, Event.initLogging loggingObj,
         Event.initThreadPool env.hardwareConcurrency] ∧
      env.initThreadPoolRes env.hardwareConcurrency = Except.ok ()) ∧
    (∀ n, Event.initThreadPool n ∈ (Worker.init env).1 →
      (Worker.init env).1.take 2 =
        [Event.moduleInit, Event.initLogging loggingObj]) := by
  cases h1 : env.moduleInitRes with
  | error e =>
    rw [init_module_error env e h1]
    exact ⟨fun v hv => absurd hv (by simp), fun n hn => absurd hn (by simp)⟩
  | ok u =>
    cases u
    cases h2 : env.initLoggingRes loggingObj with
    | error e =>
      rw [init_logging_error env e h1 h2]
      exact ⟨fun v hv => absurd hv (by simp),
             fun n hn => absurd hn (by simp)⟩
    | ok u2 =>
      cases u2
      cases h3 : env.initThreadPoolRes env.hardwareConcurrency with
      | error e =>
        rw [init_pool_error env e h1 h2 h3]
        exact ⟨fun v hv => absurd hv (by simp), fun n hn => rfl⟩
      | ok u3 =>
        cases u3
        rw [init_all_ok env h1 h2 h3]
        exact ⟨fun v hv => ⟨rfl, rfl⟩, fun n hn => rfl⟩

/-- C6 witness: the theorem applied at the all-success environment, with
both hypotheses discharged on the concrete trace. -/
theorem c6_init_step_order_witness :
    ((Worker.init env0).1 =
      [Event.moduleInit, Event.initLogging loggingObj,
       Event.initThreadPool env0.hardwareConcurrency] ∧
     env0.initThreadPoolRes env0.hardwareConcurrency = Except.ok ()) ∧
    (Worker.init env0).1.take 2 =
      [Event.moduleInit, Event.initLogging loggingObj] :=
  ⟨(c6_init_step_order env0).1 JsValue.undefined rfl,
   (c6_init_step_order env0).2 8 (by decide)⟩

/-- C7: every thread-pool request `Worker.init` makes carries exactly the
host-reported hardware concurrency as its size, and every successful
`init` does make such a request. -/
theorem c7_pool_sized_to_host_concurrency (env : Env) :
    (∀ n, Event.initThreadPool n ∈ (Worker.init env).1 →
      n = env.hardwareConcurrency) ∧
    (∀ v, (Worker.init env).2 = Except.ok v →
      Event.initThreadPool env.hardwareConcurrency ∈
        (Worker.init env).1) := by
  cases h1 : env.moduleInitRes with
  | error e =>
    rw [init_module_error env e h1]
    exact ⟨fun n hn => absurd hn (by simp),
           fun v hv => absurd hv (by simp)⟩
  | ok u =>
    cases u
    cases h2 : env.initLoggingRes loggingObj with
    | error e =>
      rw [init_logging_error env e h1 h2]
      exact ⟨fun n hn => absurd hn (by simp),
             fun v hv => absurd hv (by simp)⟩
    | ok u2 =>
      cases u2
      cases h3 : env.initThreadPoolRes env.hardwareConcurrency with
      | error e =>
        rw [init_pool_error env e h1 h2 h3]
        constructor
        · intro n hn
          simp at hn
          exact hn
        · intro v hv
          exact absurd hv (by simp)
      | ok u3 =>
        cases u3
        rw [init_all_ok env h1 h2 h3]
        constructor
        · intro n hn
          simp at hn
          exact hn
        · intro v hv
          simp

/-- C7 witness: the theorem applied at the all-success environment, whose
host reports a concurrency of 8: the trace's pool request is sized 8. -/
theorem c7_pool_sized_to_host_concurrency_witness :
    (8 : Nat) = env0.hardwareConcurrency ∧
    Event.initThreadPool env0.hardwareConcurrency ∈
      (Worker.init env0).1 :=
  ⟨(c7_pool_sized_to_host_concurrency env0).1 8 (by decide),
   (c7_pool_sized_to_host_concurrency env0).2 JsValue.undefined rfl⟩

/-- C8 counterexample: `Worker.init` takes no argument at all, so no
`TracingConfig` is supplied by the caller; yet the successful execution
in the all-success environment does make a logging-install call (with the
hardcoded config) — refuting "installed only if a TracingConfig is
supplied" and, together with `c8_logging_always_installed`, the existence
of executions that skip the install. -/
theorem c8_counterexample :
    (Worker.init env0).2 = Except.ok JsValue.undefined ∧
    Event.initLogging loggingObj ∈ (Worker.init env0).1 :=
  ⟨rfl, by decide⟩

/-- C8 (amended): `Worker.init` accepts no tracing configuration and
installs logging unconditionally: in every environment it never calls
`setup_tracing_web` (that line is commented out), and every execution
that gets past module load — in particular every successful one — makes
exactly one logging-install call, carrying the hardcoded config
(level `'Trace'`, no crate filters, no span events). -/
theorem c8_logging_always_installed (env : Env) :
    (∀ s, Event.setupTracingWeb s ∉ (Worker.init env).1) ∧
    (env.moduleInitRes = Except.ok () →
      loggingInstalls (Worker.init env).1 =
        [Event.initLogging loggingObj]) := by
  cases h1 : env.moduleInitRes with
  | error e =>
    rw [init_module_error env e h1]
    exact ⟨fun s hs => by simp at hs, fun hm => Except.noConfusion hm⟩
  | ok u =>
    cases u
    cases h2 : env.initLoggingRes loggingObj with
    | error e =>
      rw [init_logging_error env e h1 h2]
      exact ⟨fun s hs => by simp at hs, fun hm => rfl⟩
    | ok u2 =>
      cases u2
      cases h3 : env.initThreadPoolRes env.hardwareConcurrency with
      | error e =>
        rw [init_pool_error env e h1 h2 h3]
        exact ⟨fun s hs => by simp at hs, fun hm => rfl⟩
      | ok u3 =>
        cases u3
        rw [init_all_ok env h1 h2 h3]
        exact ⟨fun s hs => by simp at hs, fun hm => rfl⟩

/-- C8 witness: the amended theorem applied at the all-success
environment, its module-load hypothesis discharged concretely. -/
theorem c8_logging_always_installed_witness :
    Event.setupTracingWeb "debug" ∉ (Worker.init env0).1 ∧
    loggingInstalls (Worker.init env0).1 =
      [Event.initLogging loggingObj] :=
  ⟨(c8_logging_always_installed env0).1 "debug",
   (c8_logging_always_installed env0).2 rfl⟩

/-- C9: a failed `Worker.run` is a pure frame on the worker's runtime:
the source class has no instance fields, and on the error path the call
emits exactly the engine invocation and its diagnostic log — no setup
event — so any runtime state derived from the setup history (such as
pool readiness) is unchanged, and the caller sees only the logged and
re-raised error. -/
theorem c9_failed_run_preserves_runtime (env : Env)
    (a b c d e err : JsValue) (t : List Event)
    (h : Worker.run env a b c d e = (t, Except.error err)) :
    t = [Event.wasmMain a b c d e, Event.consoleError err] ∧
    t.filter isSetupEvent = [] ∧
    (∀ hist, runtimeReady (hist ++ t) = runtimeReady hist) := by
  cases hw : env.wasmMainRes a b c d e with
  | error err2 =>
    rw [run_error env a b c d e err2 hw] at h
    injection h with h1 h2
    injection h2 with h3
    subst h3
    subst h1
    refine ⟨rfl, rfl, ?_⟩
    intro hist
    simp [runtimeReady, List.any_append]
  | ok v =>
    rw [run_ok env a b c d e v hw] at h
    have := congrArg Prod.snd h
    simp at this

/-- C9 witness: the theorem applied where the engine throws
`"ConnectionRefused"`, with the abstract history instantiated to one
containing a pool request: readiness before and after the failed run
coincide. -/
theorem c9_failed_run_preserves_runtime_witness :
    ([Event.wasmMain argIp argWsPort argServerPort argVerifierPort
        argNativePort,
      Event.consoleError (JsValue.str "ConnectionRefused")].filter
        isSetupEvent = []) ∧
    runtimeReady ([Event.initThreadPool 8] ++
        [Event.wasmMain argIp argWsPort argServerPort argVerifierPort
          argNativePort,
         Event.consoleError (JsValue.str "ConnectionRefused")]) =
      runtimeReady [Event.initThreadPool 8] :=
  ⟨(c9_failed_run_preserves_runtime envRunFail argIp argWsPort
      argServerPort argVerifierPort argNativePort
      (JsValue.str "ConnectionRefused") _ rfl).2.1,
   (c9_failed_run_preserves_runtime envRunFail argIp argWsPort
      argServerPort argVerifierPort argNativePort
      (JsValue.str "ConnectionRefused") _ rfl).2.2
     [Event.initThreadPool 8]⟩

/-- C10: the bootstrap prover script: evaluating the module is exactly one
unconditional invocation of its top-level `run` (the script ends in a bare
`run();`, with no RPC trigger); the calls it makes are, in order, module
init, then `initThreadPool` with the host concurrency, then `wasm_start`
(the trace is always an in-order prefix of that sequence, and the whole
sequence on success); it never logs an error (no error handling), never
installs logging and never calls `setup_tracing_web`; and a throwing step
propagates its error to the top unchanged. -/
theorem c10_bootstrap_unconditional (env : Env) :
    bootstrapModuleEval env = bootstrapRun env ∧
    (∃ k, (bootstrapRun env).1 =
      ([Event.moduleInit, Event.initThreadPool env.hardwareConcurrency,
        Event.wasmStart]).take k) ∧
    (∀ v, (bootstrapRun env).2 = Except.ok v →
      (bootstrapRun env).1 =
        [Event.moduleInit, Event.initThreadPool env.hardwareConcurrency,
         Event.wasmStart]) ∧
    (∀ e2, Event.consoleError e2 ∉ (bootstrapRun env).1) ∧
    (∀ cfg, Event.initLogging cfg ∉ (bootstrapRun env).1) ∧
    (∀ s, Event.setupTracingWeb s ∉ (bootstrapRun env).1) ∧
    (∀ err, env.proverModuleInitRes = Except.error err →
      bootstrapRun env = ([Event.moduleInit], Except.error err)) := by
  refine ⟨rfl, ?_⟩
  cases h1 : env.proverModuleInitRes with
  | error e =>
    rw [boot_module_error env e h1]
    refine ⟨⟨1, rfl⟩, fun v hv => absurd hv (by simp),
      fun e2 => by simp, fun cfg => by simp, fun s => by simp,
      fun err he => ?_⟩
    injection he with h'
    subst h'
    rfl
  | ok u =>
    cases u
    cases h2 : env.proverPoolRes env.hardwareConcurrency with
    | error e =>
      rw [boot_pool_error env e h1 h2]
      exact ⟨⟨2, rfl⟩, fun v hv => absurd hv (by simp),
        fun e2 => by simp, fun cfg => by simp, fun s => by simp,
        fun err he => Except.noConfusion he⟩
    | ok u2 =>
      cases u2
      cases h3 : env.wasmStartRes with
      | error e =>
        rw [boot_start_error env e h1 h2 h3]
        exact ⟨⟨3, rfl⟩, fun v hv => absurd hv (by simp),
          fun e2 => by simp, fun cfg => by simp, fun s => by simp,
          fun err he => Except.noConfusion he⟩
      | ok v0 =>
        rw [boot_all_ok env v0 h1 h2 h3]
        exact ⟨⟨3, rfl⟩, fun v hv => rfl,
          fun e2 => by simp, fun cfg => by simp, fun s => by simp,
          fun err he => Except.noConfusion he⟩

/-- C10 witness: the theorem applied at the all-success environment (full
trace, no tracing, no logging, no error log) and at the environment where
the prover module load throws (the error propagates uncaught). -/
theorem c10_bootstrap_unconditional_witness :
    (bootstrapRun env0).1 =
      [Event.moduleInit, Event.initThreadPool env0.hardwareConcurrency,
       Event.wasmStart] ∧
    Event.consoleError (JsValue.str "boot load failed") ∉
      (bootstrapRun envBootFail).1 ∧
    bootstrapRun envBootFail =
      ([Event.moduleInit], Except.error (JsValue.str "boot load failed")) :=
  ⟨(c10_bootstrap_unconditional env0).2.2.1 JsValue.undefined rfl,
   (c10_bootstrap_unconditional envBootFail).2.2.2.1
     (JsValue.str "boot load failed"),
   (c10_bootstrap_unconditional envBootFail).2.2.2.2.2.2
     (JsValue.str "boot load failed") rfl⟩
